import Mathlib

/-!
# CloudTunnel configuration registry: verification of the config store and CLI commands

Shallow embedding of the CloudTunnel CLI (`src/cli.ts`): the persisted
configuration document, `loadConfig`/`saveConfig`, the `add-service`,
`remove-service`, `run`, `stop` and `init` command logic, and the
spec-described `migrate` and `tunnelStatus` operations.

JSON documents are modelled as an inductive `Json` value: `JSON.stringify`
and `JSON.parse` are inverse on JSON-representable values, so the file
content is modelled as the JSON value it parses to, plus distinguished
states for a missing file and for content on which `JSON.parse` throws.
-/

namespace CloudTunnel

/-- A JSON value (the image of `JSON.parse` / the domain of `JSON.stringify`). -/
inductive Json where
  | null
  | bool (b : Bool)
  | str (s : String)
  | num (n : Int)
  | arr (elems : List Json)
  | obj (fields : List (String × Json))
deriving Repr

/-- First-match field lookup in a JSON object's field list. -/
def lookupField : List (String × Json) → String → Option Json
  | [], _ => none
  | (k, v) :: rest, key => if k == key then some v else lookupField rest key

/-- `j[key]` on a JSON value: a field of an object, absent otherwise. -/
def Json.getField (j : Json) (key : String) : Option Json :=
  match j with
  | .obj fs => lookupField fs key
  | _ => none

/-- `Service` from `src/cli.ts`:
`{hostname: string; service: string; createdAt?: string}`. -/
structure Service where
  hostname : String
  service : String
  createdAt : Option String
deriving Repr, DecidableEq

/-- `Config` from `src/cli.ts`:
`{tunnelName: string; tunnelId: string; services: Service[]}`. -/
structure Config where
  tunnelName : String
  tunnelId : String
  services : List Service
deriving Repr, DecidableEq

/-- Serialization of a `Service` (the object `JSON.stringify` sees;
`createdAt` is omitted when absent, as `stringify` omits `undefined`). -/
def Service.toJson (s : Service) : Json :=
  .obj ([("hostname", .str s.hostname), ("service", .str s.service)] ++
    (match s.createdAt with
     | some t => [("createdAt", .str t)]
     | none => []))

/-- Serialization of a `Config`. -/
def Config.toJson (c : Config) : Json :=
  .obj [("tunnelName", .str c.tunnelName), ("tunnelId", .str c.tunnelId),
        ("services", .arr (c.services.map Service.toJson))]

/-- Reading a `Service` back from a parsed JSON value. -/
def Service.fromJson (j : Json) : Option Service :=
  match j.getField "hostname", j.getField "service" with
  | some (.str h), some (.str sv) =>
      some { hostname := h, service := sv,
             createdAt :=
               match j.getField "createdAt" with
               | some (.str t) => some t
               | _ => none }
  | _, _ => none

/-- Reading a list of services back from parsed JSON values. -/
def decodeServices : List Json → Option (List Service)
  | [] => some []
  | j :: rest =>
      match Service.fromJson j, decodeServices rest with
      | some s, some ss => some (s :: ss)
      | _, _ => none

/-- Reading a `Config` back from a parsed JSON value. -/
def Config.fromJson (j : Json) : Option Config :=
  match j.getField "tunnelName", j.getField "tunnelId", j.getField "services" with
  | some (.str n), some (.str i), some (.arr sj) =>
      (decodeServices sj).map fun ss =>
        { tunnelName := n, tunnelId := i, services := ss }
  | _, _, _ => none

/-- State of the config file `~/.cloudflared/askhoku-config.json`:
missing, present with content `JSON.parse` throws on, or present with
content parsing to a JSON value. -/
inductive FileState where
  | missing
  | malformed
  | json (j : Json)
deriving Repr

/-- The fresh empty config `loadConfig` builds:
`{ tunnelName: "", tunnelId: "", services: [] }`. -/
def emptyConfig : Config := { tunnelName := "", tunnelId := "", services := [] }

/-- `loadConfig` (`src/cli.ts:56-69`): missing file → fresh empty config;
content `JSON.parse` throws on → caught, diagnostic logged, fresh empty
config; otherwise the parsed value, returned unvalidated (a parsed value
that is not `Config`-shaped lies outside the `Config` type and is modelled
by the empty config; no theorem below depends on that branch). -/
def loadConfig : FileState → Config
  | .missing => emptyConfig
  | .malformed => emptyConfig
  | .json j => (Config.fromJson j).getD emptyConfig

/-- Whether `loadConfig` printed the `Error parsing config file` diagnostic:
exactly on the catch branch for unparsable content. -/
def loadLogsDiagnostic : FileState → Bool
  | .malformed => true
  | _ => false

/-- `saveConfig` (`src/cli.ts:74-77`): writes `JSON.stringify(config)`,
overwriting whatever the file held before. -/
def saveConfig (c : Config) : FileState := .json (Config.toJson c)

-- Round-trip lemmas for the JSON (de)serialization.

theorem service_fromJson_toJson (s : Service) :
    Service.fromJson (Service.toJson s) = some s := by
  cases s with
  | mk h sv c =>
    cases c <;>
      simp +decide [Service.toJson, Service.fromJson, Json.getField, lookupField]

theorem decodeServices_map_toJson (ss : List Service) :
    decodeServices (ss.map Service.toJson) = some ss := by
  induction ss with
  | nil => rfl
  | cons s rest ih =>
    simp [decodeServices, service_fromJson_toJson, ih]

theorem config_fromJson_toJson (c : Config) :
    Config.fromJson (Config.toJson c) = some c := by
  cases c with
  | mk n i ss =>
    simp +decide [Config.toJson, Config.fromJson, Json.getField, lookupField,
      decodeServices_map_toJson]

/-- C2: `loadConfig` fails soft: a missing file yields the fresh empty
config, malformed content logs a diagnostic and yields the fresh empty
config, and for every file state `loadConfig` is a total function into
`Config` — it never propagates an error. -/
theorem load_fails_soft :
    loadConfig .missing = emptyConfig ∧
    (loadConfig .malformed = emptyConfig ∧ loadLogsDiagnostic .malformed = true) ∧
    ∀ fs : FileState, ∃ c : Config, loadConfig fs = c :=
  ⟨rfl, ⟨rfl, rfl⟩, fun fs => ⟨loadConfig fs, rfl⟩⟩

/-- C3: round-trip: loading immediately after saving returns the registry
that was saved: `loadConfig (saveConfig R) = R` for every `R`. -/
theorem load_save_roundtrip (R : Config) : loadConfig (saveConfig R) = R := by
  simp [loadConfig, saveConfig, config_fromJson_toJson]

/-! ## Migration (multi-tunnel schema)

The v2 migration code is not among the provided sources (the v2.0.x
`cli.ts` is absent; the README/CHANGELOG only declare "Automatic config
migration from v1 to v2"), so `migrate` is modelled from the spec. -/

/-- Modelled from the spec: the current schema version of the persisted
multi-tunnel document (`version` field; README documents `"2.0.0"`). -/
def CURRENT_VERSION : String := "2.0.0"

/-- Modelled from the spec: detection of the legacy single-tunnel shape —
"top-level `tunnelId`/`tunnelName`/`services` fields, no `tunnels` map". -/
def isLegacyShape (j : Json) : Bool :=
  match j with
  | .obj fs =>
      (match lookupField fs "tunnelId" with | some (.str _) => true | _ => false) &&
      (match lookupField fs "tunnelName" with | some (.str _) => true | _ => false) &&
      (match lookupField fs "services" with | some (.arr _) => true | _ => false) &&
      (lookupField fs "tunnels").isNone
  | _ => false

/-- Modelled from the spec: lifting a legacy document into the multi-tunnel
shape — "the legacy tunnel becomes the sole entry in `tunnels`, keyed by
its id, and becomes `activeTunnelId`" (persisted field `activeTunnel`). -/
def liftLegacy (fs : List (String × Json)) : Json :=
  let tid := match lookupField fs "tunnelId" with | some (.str s) => s | _ => ""
  let tname := match lookupField fs "tunnelName" with | some (.str s) => s | _ => ""
  let svcs := match lookupField fs "services" with | some (.arr a) => a | _ => []
  .obj [("version", .str CURRENT_VERSION),
        ("activeTunnel", .str tid),
        ("tunnels", .obj [(tid,
          .obj [("tunnelName", .str tname), ("tunnelId", .str tid),
                ("services", .arr svcs)])])]

/-- Modelled from the spec: `migrate(raw)` — lifts a legacy-shape document,
and "applying it to already-current-schema data is a no-op". -/
def migrate (j : Json) : Json :=
  match j with
  | .obj fs => if isLegacyShape (.obj fs) then liftLegacy fs else .obj fs
  | other => other

theorem isLegacyShape_liftLegacy (fs : List (String × Json)) :
    isLegacyShape (liftLegacy fs) = false := by
  simp +decide [liftLegacy, isLegacyShape, lookupField]

/-- C1: `migrate` lifts a legacy single-tunnel document (top-level
`tunnelId`/`tunnelName`/`services`, no `tunnels` map) into the
multi-tunnel shape with the legacy tunnel as sole entry of `tunnels`,
keyed by its id and set as the active tunnel; and `migrate` is idempotent
on every input. -/
theorem migrate_lifts_and_idempotent :
    (∀ (fs : List (String × Json)) (tid tname : String) (svcs : List Json),
      lookupField fs "tunnelId" = some (.str tid) →
      lookupField fs "tunnelName" = some (.str tname) →
      lookupField fs "services" = some (.arr svcs) →
      lookupField fs "tunnels" = none →
      migrate (.obj fs) =
        .obj [("version", .str CURRENT_VERSION),
              ("activeTunnel", .str tid),
              ("tunnels", .obj [(tid,
                .obj [("tunnelName", .str tname), ("tunnelId", .str tid),
                      ("services", .arr svcs)])])]) ∧
    ∀ j : Json, migrate (migrate j) = migrate j := by
  constructor
  · intro fs tid tname svcs h1 h2 h3 h4
    simp [migrate, isLegacyShape, liftLegacy, h1, h2, h3, h4]
  · intro j
    cases j with
    | obj fs =>
      by_cases h : isLegacyShape (.obj fs) = true
      · rw [migrate, if_pos h]
        have hfalse := isLegacyShape_liftLegacy fs
        rw [liftLegacy] at hfalse ⊢
        rw [migrate, if_neg (by simp [hfalse])]
      · rw [migrate, if_neg h, migrate, if_neg h]
    | null => rfl
    | bool b => rfl
    | str s => rfl
    | num n => rfl
    | arr elems => rfl

/-- The spec §8 example legacy document:
`{tunnelName:"t1", tunnelId:"abc", services:[{hostname:"a.example.com", service:"http://localhost:3000"}]}`. -/
def legacyExampleFields : List (String × Json) :=
  [("tunnelName", .str "t1"), ("tunnelId", .str "abc"),
   ("services", .arr [.obj [("hostname", .str "a.example.com"),
                            ("service", .str "http://localhost:3000")]])]

/-- Witness for C1: `migrate` on the spec §8 example legacy document. -/
theorem migrate_lifts_witness :
    migrate (.obj legacyExampleFields) =
      .obj [("version", .str CURRENT_VERSION),
            ("activeTunnel", .str "abc"),
            ("tunnels", .obj [("abc",
              .obj [("tunnelName", .str "t1"), ("tunnelId", .str "abc"),
                    ("services", .arr [.obj [("hostname", .str "a.example.com"),
                                             ("service", .str "http://localhost:3000")]])])])] :=
  migrate_lifts_and_idempotent.1 legacyExampleFields "abc" "t1"
    [.obj [("hostname", .str "a.example.com"),
           ("service", .str "http://localhost:3000")]]
    rfl rfl rfl rfl

/-! ## The `add-service` command (`src/cli.ts:387-538`) -/

/-- `[a-zA-Z0-9]` (`Char.isAlpha`/`Char.isDigit` are exactly the ASCII ranges). -/
def isAlphaNumChar (c : Char) : Bool := c.isAlpha || c.isDigit

/-- `[a-zA-Z0-9-]`. -/
def isLabelChar (c : Char) : Bool := isAlphaNumChar c || c == '-'

/-- Full match of one hostname label against
`[a-zA-Z0-9]([a-zA-Z0-9-]{0,61}[a-zA-Z0-9])?`: a single alphanumeric
character, or an alphanumeric, then up to 61 label characters, then an
alphanumeric. -/
def validLabel : List Char → Bool
  | [] => false
  | [c] => isAlphaNumChar c
  | c :: rest =>
      isAlphaNumChar c && rest.length ≤ 62 &&
        (match rest.reverse with
         | [] => false
         | last :: mid => isAlphaNumChar last && mid.all isLabelChar)

/-- Split a character sequence at every `'.'` (like `"…".split(".")`:
`n` dots yield `n + 1` parts, empty parts included). -/
def splitOnDot : List Char → List (List Char)
  | [] => [[]]
  | c :: rest =>
      if c == '.' then [] :: splitOnDot rest
      else
        match splitOnDot rest with
        | [] => [[c]]
        | p :: ps => (c :: p) :: ps

/-- The hostname validation regex of `add-service`
(`src/cli.ts:451-452`): `^([a-zA-Z0-9]([a-zA-Z0-9-]{0,61}[a-zA-Z0-9])?\.)+[a-zA-Z]{2,}$`.
Labels contain no dot, so a full match decomposes uniquely at the dots:
all dot-separated parts but the last are labels, the last is `[a-zA-Z]{2,}`. -/
def hostnameRegexTest (s : String) : Bool :=
  match (splitOnDot s.toList).reverse with
  | [] => false
  | tld :: labelsRev =>
      !labelsRev.isEmpty && labelsRev.all validLabel &&
        decide (2 ≤ tld.length) && tld.all Char.isAlpha

/-- The hostname `validate` callback (`src/cli.ts:448-461`): rejects an
empty input, an input failing the hostname regex, and a hostname already
configured in `config.services`. -/
def validateHostname (services : List Service) (input : String) : Bool :=
  !(input == "") && hostnameRegexTest input &&
    !(services.any (fun s => s.hostname == input))

/-- JavaScript `parseInt(s, 10)`: skip leading whitespace, optional sign,
then the longest leading digit run (trailing garbage ignored); `NaN`
(here `none`) when no digit is found. -/
def parseIntJS (s : String) : Option Int :=
  let cs := s.toList.dropWhile Char.isWhitespace
  let signed : Bool × List Char :=
    match cs with
    | '-' :: rest => (true, rest)
    | '+' :: rest => (false, rest)
    | _ => (false, cs)
  let digits := signed.2.takeWhile Char.isDigit
  if digits.isEmpty then none
  else
    let n : Nat := digits.foldl (fun acc c => acc * 10 + (c.toNat - 48)) 0
    some (if signed.1 then -(n : Int) else (n : Int))

/-- The port `validate` callback (`src/cli.ts:467-473`): rejects when
`parseInt(input, 10)` is `NaN`, `<= 0` or `>= 65536`. -/
def portValid (input : String) : Bool :=
  match parseIntJS input with
  | none => false
  | some n => decide (0 < n) && decide (n < 65536)

/-- The protocol answer (list prompt: `http` or `https`). -/
inductive Protocol where
  | http
  | https
deriving Repr, DecidableEq

def Protocol.toStr : Protocol → String
  | .http => "http"
  | .https => "https"

/-- One interactive attempt at the `add-service` prompts, plus the
timestamp `new Date().toISOString()` taken at service creation. -/
structure AddServiceInput where
  hostname : String
  port : String
  protocol : Protocol
  now : String
deriving Repr, DecidableEq

/-- The service record built at `src/cli.ts:490-494`:
`{hostname, service: protocol + "://localhost:" + port, createdAt: now}`. -/
def newService (inp : AddServiceInput) : Service :=
  { hostname := inp.hostname,
    service := inp.protocol.toStr ++ "://localhost:" ++ inp.port,
    createdAt := some inp.now }

/-- One attempt of the `add-service` mutation: when all prompt validations
pass, the new service is pushed onto `config.services` and the config is
saved (`src/cli.ts:495-496`); a rejected input re-prompts, leaving the
persisted config untouched (`none`). -/
def addService (cfg : Config) (inp : AddServiceInput) : Option Config :=
  if validateHostname cfg.services inp.hostname && portValid inp.port then
    some { cfg with services := cfg.services ++ [newService inp] }
  else none

/-- A sequence of `add-service` attempts; rejected attempts leave the
config unchanged. -/
def addMany (cfg : Config) (inps : List AddServiceInput) : Config :=
  inps.foldl (fun c i => (addService c i).getD c) cfg

theorem addService_preserves_nodup (cfg : Config) (inp : AddServiceInput)
    (cfg' : Config) (h : addService cfg inp = some cfg')
    (hnd : (cfg.services.map Service.hostname).Nodup) :
    (cfg'.services.map Service.hostname).Nodup := by
  unfold addService at h
  split at h
  case isTrue hg =>
    have hval : validateHostname cfg.services inp.hostname = true :=
      (Bool.and_eq_true ..).mp hg |>.1
    have hnotin : inp.hostname ∉ cfg.services.map Service.hostname := by
      intro hmem
      obtain ⟨s, hs, he⟩ := List.mem_map.mp hmem
      have : cfg.services.any (fun s => s.hostname == inp.hostname) = true := by
        simp only [List.any_eq_true]
        exact ⟨s, hs, by simp [he]⟩
      simp [validateHostname, this] at hval
    injection h with h'
    subst h'
    simp only [List.map_append, List.map_cons, List.map_nil]
    rw [List.nodup_append]
    exact ⟨hnd, List.nodup_singleton _, by
      simp only [newService, List.disjoint_singleton]
      exact hnotin⟩
  case isFalse => cases h

theorem addMany_preserves_nodup (inps : List AddServiceInput) :
    ∀ cfg : Config, (cfg.services.map Service.hostname).Nodup →
      ((addMany cfg inps).services.map Service.hostname).Nodup := by
  induction inps with
  | nil => intro cfg h; exact h
  | cons i rest ih =>
    intro cfg h
    show ((addMany ((addService cfg i).getD cfg) rest).services.map
      Service.hostname).Nodup
    apply ih
    cases hadd : addService cfg i with
    | none => simpa [hadd] using h
    | some c' => simpa [hadd] using addService_preserves_nodup cfg i c' hadd h

/-- C4: adding a service whose hostname is already present in the
tunnel's service list is rejected with the config unmutated (`none`);
consequently hostnames stay pairwise distinct within the service list
across any sequence of `add-service` attempts. -/
theorem addService_hostname_unique :
    (∀ (cfg : Config) (inp : AddServiceInput),
      inp.hostname ∈ cfg.services.map Service.hostname →
      addService cfg inp = none) ∧
    (∀ (cfg : Config) (inps : List AddServiceInput),
      (cfg.services.map Service.hostname).Nodup →
      ((addMany cfg inps).services.map Service.hostname).Nodup) := by
  constructor
  · intro cfg inp hmem
    obtain ⟨s, hs, he⟩ := List.mem_map.mp hmem
    have hany : cfg.services.any (fun s => s.hostname == inp.hostname) = true := by
      simp only [List.any_eq_true]
      exact ⟨s, hs, by simp [he]⟩
    simp [addService, validateHostname, hany]
  · intro cfg inps hnd
    exact addMany_preserves_nodup inps cfg hnd

/-- A sample config with one service (the spec §8 example service). -/
def exampleService : Service :=
  { hostname := "a.example.com", service := "http://localhost:3000",
    createdAt := some "2024-01-01T00:00:00.000Z" }

def exampleConfig : Config :=
  { tunnelName := "t1", tunnelId := "abc", services := [exampleService] }

/-- An `add-service` attempt re-using the already-configured hostname. -/
def dupInput : AddServiceInput :=
  { hostname := "a.example.com", port := "4000", protocol := .http,
    now := "2024-01-02T00:00:00.000Z" }

/-- Witness for C4 at a concrete duplicate-hostname attempt. -/
theorem addService_hostname_unique_witness :
    addService exampleConfig dupInput = none ∧
    ((addMany exampleConfig [dupInput]).services.map Service.hostname).Nodup :=
  ⟨addService_hostname_unique.1 exampleConfig dupInput (by decide),
   addService_hostname_unique.2 exampleConfig [dupInput] (by decide)⟩

/-! ## Ingress generation in the `run` command (`src/cli.ts:704-726`) -/

/-- One rule of the generated `ingress` list: `{hostname?, service}`. -/
structure IngressRule where
  hostname : Option String
  service : String
deriving Repr, DecidableEq

/-- The ingress list built by `run`: one `{hostname, service}` rule per
configured service (in list order, via `map`), then the catch-all
`{service: "http_status:404"}` pushed last. -/
def ingressRules (services : List Service) : List IngressRule :=
  (services.map fun s => { hostname := some s.hostname, service := s.service }) ++
    [{ hostname := none, service := "http_status:404" }]

/-- C5: the generated ingress list has exactly `n + 1` rules for `n`
services: the `i`-th rule is the `i`-th service's `{hostname, service}`
(insertion order), and the final rule is the catch-all
`{service: "http_status:404"}`. -/
theorem ingress_rules_shape (services : List Service) :
    (ingressRules services).length = services.length + 1 ∧
    (ingressRules services).getLast? =
      some { hostname := none, service := "http_status:404" } ∧
    ∀ i, (h : i < services.length) →
      (ingressRules services)[i]? =
        some { hostname := some services[i].hostname,
               service := services[i].service } := by
  refine ⟨by simp [ingressRules], List.getLast?_concat _, ?_⟩
  intro i h
  rw [ingressRules, List.getElem?_append, if_pos (by simpa using h),
    List.getElem?_map, List.getElem?_eq_getElem h]
  rfl

/-- Witness for C5 on a one-service config. -/
theorem ingress_rules_witness :
    (ingressRules [exampleService]).length = 2 ∧
    (ingressRules [exampleService]).getLast? =
      some { hostname := none, service := "http_status:404" } ∧
    (ingressRules [exampleService])[0]? =
      some { hostname := some "a.example.com",
             service := "http://localhost:3000" } :=
  ⟨(ingress_rules_shape [exampleService]).1,
   (ingress_rules_shape [exampleService]).2.1,
   (ingress_rules_shape [exampleService]).2.2 0 (by decide)⟩

/-! ## Command-surface precondition checks

Each command's prologue, in source order. `checkCloudflaredInstalled` and
`isLoggedIn` (cert marker file) are probes of the environment, modelled as
fields of `Env`; "no tunnel" is `!config.tunnelId` (empty string is falsy). -/

structure Env where
  installed : Bool
  loggedIn : Bool
deriving Repr, DecidableEq

inductive Precheck where
  | notInstalled
  | notLoggedIn
  | noTunnel
  | noServices
deriving Repr, DecidableEq

/-- `init` prologue (`src/cli.ts:192-214`): installed, then logged in. -/
def initGate (e : Env) : Option Precheck :=
  if !e.installed then some .notInstalled
  else if !e.loggedIn then some .notLoggedIn
  else none

/-- `add-service` prologue (`src/cli.ts:393-423`): installed, then logged
in, then a tunnel configured. -/
def addServiceGate (e : Env) (cfg : Config) : Option Precheck :=
  if !e.installed then some .notInstalled
  else if !e.loggedIn then some .notLoggedIn
  else if cfg.tunnelId == "" then some .noTunnel
  else none

/-- `run` prologue (`src/cli.ts:635-665`): installed, then logged in, then
a tunnel configured. -/
def runGate (e : Env) (cfg : Config) : Option Precheck :=
  if !e.installed then some .notInstalled
  else if !e.loggedIn then some .notLoggedIn
  else if cfg.tunnelId == "" then some .noTunnel
  else none

/-- `stop` prologue (`src/cli.ts:856-875`): installed, then a tunnel
configured — there is no logged-in check. -/
def stopGate (e : Env) (cfg : Config) : Option Precheck :=
  if !e.installed then some .notInstalled
  else if cfg.tunnelId == "" then some .noTunnel
  else none

/-- `remove-service` prologue (`src/cli.ts:1012-1040`): installed, then a
tunnel configured, then a non-empty service list — no logged-in check. -/
def removeServiceGate (e : Env) (cfg : Config) : Option Precheck :=
  if !e.installed then some .notInstalled
  else if cfg.tunnelId == "" then some .noTunnel
  else if cfg.services.isEmpty then some .noServices
  else none

/-- The full `add-service` command (`src/cli.ts:387-538`): prologue, one
prompt attempt, push + save, then the best-effort
`cloudflared tunnel route dns` call whose failure is caught and reported
as a warning (second component) without touching the saved config. -/
def addServiceCmd (e : Env) (cfg : Config) (inp : AddServiceInput)
    (dnsOk : Bool) : Config × Bool :=
  match addServiceGate e cfg with
  | some _ => (cfg, false)
  | none =>
      match addService cfg inp with
      | none => (cfg, false)
      | some cfg' => (cfg', !dnsOk)

/-- The full `remove-service` command (`src/cli.ts:1006-1175`): prologue,
interactive index selection, confirmation, then
`config.services.splice(selectedIndex, 1)` and save. -/
def removeServiceCmd (e : Env) (cfg : Config) (selectedIndex : Nat)
    (confirmed : Bool) : Config :=
  match removeServiceGate e cfg with
  | some _ => cfg
  | none =>
      if !confirmed then cfg
      else { cfg with services := cfg.services.eraseIdx selectedIndex }

/-- An environment where cloudflared is installed but the `cert.pem`
authentication marker is absent. -/
def envNotLoggedIn : Env := { installed := true, loggedIn := false }

/-- Counterexample for C6: `remove-service` is a mutating command, the
authentication precondition (marker-file presence) fails in
`envNotLoggedIn`, yet the command does not halt — it mutates the
registry, because `remove-service` never checks `isLoggedIn`. -/
theorem precondition_order_counterexample :
    envNotLoggedIn.loggedIn = false ∧
    removeServiceCmd envNotLoggedIn exampleConfig 0 true ≠ exampleConfig := by
  decide

/-- C6 (amended): commands check preconditions in the order installed →
logged in (for `init`/`add-service`/`run` only; `stop` and
`remove-service` skip the authentication check) → tunnel selected, and a
failed check of a command's own prologue halts it with the registry
unmutated. -/
theorem precondition_order_amended :
    (∀ (e : Env) (cfg : Config), e.installed = false →
      initGate e = some .notInstalled ∧
      addServiceGate e cfg = some .notInstalled ∧
      runGate e cfg = some .notInstalled ∧
      stopGate e cfg = some .notInstalled ∧
      removeServiceGate e cfg = some .notInstalled) ∧
    (∀ (e : Env) (cfg : Config), e.installed = true → e.loggedIn = false →
      initGate e = some .notLoggedIn ∧
      addServiceGate e cfg = some .notLoggedIn ∧
      runGate e cfg = some .notLoggedIn) ∧
    (∀ (e : Env) (cfg : Config), e.installed = true → e.loggedIn = true →
      cfg.tunnelId = "" →
      addServiceGate e cfg = some .noTunnel ∧
      runGate e cfg = some .noTunnel) ∧
    (∀ (e : Env) (cfg : Config), e.installed = true → cfg.tunnelId = "" →
      stopGate e cfg = some .noTunnel ∧
      removeServiceGate e cfg = some .noTunnel) ∧
    (∀ (e : Env) (cfg : Config) (inp : AddServiceInput) (dnsOk : Bool),
      addServiceGate e cfg ≠ none →
      (addServiceCmd e cfg inp dnsOk).1 = cfg) ∧
    (∀ (e : Env) (cfg : Config) (i : Nat) (conf : Bool),
      removeServiceGate e cfg ≠ none →
      removeServiceCmd e cfg i conf = cfg) := by
  refine ⟨?_, ?_, ?_, ?_, ?_, ?_⟩
  · intro e cfg h
    simp [initGate, addServiceGate, runGate, stopGate, removeServiceGate, h]
  · intro e cfg h1 h2
    simp [initGate, addServiceGate, runGate, h1, h2]
  · intro e cfg h1 h2 h3
    simp [addServiceGate, runGate, h1, h2, h3]
  · intro e cfg h1 h2
    simp [stopGate, removeServiceGate, h1, h2]
  · intro e cfg inp dnsOk hne
    unfold addServiceCmd
    cases hg : addServiceGate e cfg with
    | none => exact absurd hg hne
    | some p => rfl
  · intro e cfg i conf hne
    unfold removeServiceCmd
    cases hg : removeServiceGate e cfg with
    | none => exact absurd hg hne
    | some p => rfl

/-- Witness for the amended C6 at concrete environments. -/
theorem precondition_order_amended_witness :
    stopGate { installed := false, loggedIn := true } exampleConfig =
      some .notInstalled ∧
    addServiceGate envNotLoggedIn exampleConfig = some .notLoggedIn ∧
    removeServiceCmd { installed := false, loggedIn := false }
      exampleConfig 0 true = exampleConfig :=
  ⟨(precondition_order_amended.1 { installed := false, loggedIn := true }
      exampleConfig rfl).2.2.2.1,
   (precondition_order_amended.2.1 envNotLoggedIn exampleConfig rfl rfl).2.1,
   precondition_order_amended.2.2.2.2.2 { installed := false, loggedIn := false }
     exampleConfig 0 true (by decide)⟩

/-- C7: DNS route creation is best-effort: once the prompts pass and the
service is pushed and saved, a failing `cloudflared tunnel route dns`
call only produces a warning — the saved config is the same as on DNS
success and still holds the new service (no rollback). -/
theorem dns_best_effort (e : Env) (cfg : Config) (inp : AddServiceInput)
    (cfg' : Config) (hg : addServiceGate e cfg = none)
    (hadd : addService cfg inp = some cfg') :
    (addServiceCmd e cfg inp false).1 = cfg' ∧
    (addServiceCmd e cfg inp false).2 = true ∧
    (addServiceCmd e cfg inp false).1 = (addServiceCmd e cfg inp true).1 ∧
    newService inp ∈ (addServiceCmd e cfg inp false).1.services := by
  have hsvc : cfg'.services = cfg.services ++ [newService inp] := by
    unfold addService at hadd
    split at hadd
    · injection hadd with h'
      subst h'
      rfl
    · cases hadd
  refine ⟨?_, ?_, ?_, ?_⟩ <;> simp [addServiceCmd, hg, hadd, hsvc]

/-- A fresh, valid `add-service` attempt against `exampleConfig`. -/
def freshInput : AddServiceInput :=
  { hostname := "b.example.com", port := "4000", protocol := .https,
    now := "2024-01-02T00:00:00.000Z" }

/-- The environment with cloudflared installed and `cert.pem` present. -/
def envReady : Env := { installed := true, loggedIn := true }

/-- Witness for C7 at a concrete add followed by a failing DNS call. -/
theorem dns_best_effort_witness :
    (addServiceCmd envReady exampleConfig freshInput false).1 =
      { exampleConfig with
        services := exampleConfig.services ++ [newService freshInput] } ∧
    (addServiceCmd envReady exampleConfig freshInput false).2 = true ∧
    (addServiceCmd envReady exampleConfig freshInput false).1 =
      (addServiceCmd envReady exampleConfig freshInput true).1 ∧
    newService freshInput ∈
      (addServiceCmd envReady exampleConfig freshInput false).1.services :=
  dns_best_effort envReady exampleConfig freshInput
    { exampleConfig with
      services := exampleConfig.services ++ [newService freshInput] }
    (by decide) (by decide)

/-- C10: frame effect of a confirmed `remove-service` at a valid index
`i`: the saved service list is the original with exactly the element at
index `i` spliced out (`take i ++ drop (i+1)`), and `tunnelName` and
`tunnelId` are unchanged. -/
theorem removeService_frame (e : Env) (cfg : Config) (i : Nat)
    (hg : removeServiceGate e cfg = none) (h : i < cfg.services.length) :
    (removeServiceCmd e cfg i true).services =
      cfg.services.take i ++ cfg.services.drop (i + 1) ∧
    (removeServiceCmd e cfg i true).services.length =
      cfg.services.length - 1 ∧
    (removeServiceCmd e cfg i true).tunnelName = cfg.tunnelName ∧
    (removeServiceCmd e cfg i true).tunnelId = cfg.tunnelId := by
  have hcmd : removeServiceCmd e cfg i true =
      { cfg with services := cfg.services.eraseIdx i } := by
    simp [removeServiceCmd, hg]
  rw [hcmd]
  refine ⟨List.eraseIdx_eq_take_drop_succ .., ?_, rfl, rfl⟩
  simp [List.length_eraseIdx, h]

/-- Witness for C10: removing index 0 of the one-service config. -/
theorem removeService_frame_witness :
    (removeServiceCmd envReady exampleConfig 0 true).services = [] ∧
    (removeServiceCmd envReady exampleConfig 0 true).services.length = 0 ∧
    (removeServiceCmd envReady exampleConfig 0 true).tunnelName = "t1" ∧
    (removeServiceCmd envReady exampleConfig 0 true).tunnelId = "abc" :=
  removeService_frame envReady exampleConfig 0 (by decide) (by decide)

/-! ## Reconciliation: tunnel status

The v2 status-probing code is not among the provided sources (only the
README/CHANGELOG declare the `status` command), so `tunnelStatus` is
modelled from the spec (§4.3, §8). -/

/-- Modelled from the spec: one entry of `listRemoteTunnels()` —
`{id, name, connectionCount}`. -/
structure RemoteTunnel where
  id : String
  name : String
  connectionCount : Nat
deriving Repr, DecidableEq

inductive TunnelState where
  | running
  | stopped
  | unknown
deriving Repr, DecidableEq

/-- The connection count the remote listing reports for a tunnel id
(absent id: zero connections). -/
def connectionsFor (tid : String) (ts : List RemoteTunnel) : Nat :=
  match ts.find? (fun t => t.id == tid) with
  | some t => t.connectionCount
  | none => 0

/-- Does `cs` start with `pat`? -/
def startsWithChars : List Char → List Char → Bool
  | _, [] => true
  | [], _ :: _ => false
  | c :: cs, p :: ps => c == p && startsWithChars cs ps

/-- Does `needle` occur as a contiguous run inside `hay`? (a process
command line containing the tunnel id). -/
def containsChars : List Char → List Char → Bool
  | [], needle => needle.isEmpty
  | c :: cs, needle =>
      startsWithChars (c :: cs) needle || containsChars cs needle

/-- Modelled from the spec: `tunnelStatus(tunnelId)` — consult
`listRemoteTunnels()` first (`none` = the call failed → unknown; at least
one connection → running); when inconclusive, fall back to the local
process scan (`none` = the scan errored → unknown; a command line
containing the id → running; otherwise stopped). -/
def tunnelStatus (tid : String) (remote : Option (List RemoteTunnel))
    (procScan : Option (List String)) : TunnelState :=
  match remote with
  | none => .unknown
  | some ts =>
      if 1 ≤ connectionsFor tid ts then .running
      else
        match procScan with
        | none => .unknown
        | some procs =>
            if procs.any (fun cmd => containsChars cmd.toList tid.toList) then
              .running
            else .stopped

/-- C8: `tunnelStatus` returns `running` when the remote listing reports
at least one connection for the id, `stopped` when the listing succeeds
with zero connections and no local process command line matches, and
`unknown` when the listing call itself fails; it is a total function into
the three-state type — it never propagates an exception. -/
theorem tunnelStatus_three_states :
    (∀ (tid : String) (procScan : Option (List String)),
      tunnelStatus tid none procScan = .unknown) ∧
    (∀ (tid : String) (ts : List RemoteTunnel) (procScan : Option (List String)),
      1 ≤ connectionsFor tid ts →
      tunnelStatus tid (some ts) procScan = .running) ∧
    (∀ (tid : String) (ts : List RemoteTunnel) (procs : List String),
      connectionsFor tid ts = 0 →
      procs.all (fun cmd => !containsChars cmd.toList tid.toList) = true →
      tunnelStatus tid (some ts) (some procs) = .stopped) ∧
    (∀ (tid : String) (remote : Option (List RemoteTunnel))
        (procScan : Option (List String)),
      tunnelStatus tid remote procScan = .running ∨
      tunnelStatus tid remote procScan = .stopped ∨
      tunnelStatus tid remote procScan = .unknown) := by
  refine ⟨fun tid procScan => rfl, ?_, ?_, ?_⟩
  · intro tid ts procScan h
    simp [tunnelStatus, h]
  · intro tid ts procs h0 hall
    have hany : procs.any
        (fun cmd => containsChars cmd.toList tid.toList) = false := by
      rw [List.any_eq_false]
      intro cmd hmem
      simpa using List.all_eq_true.mp hall cmd hmem
    simp only [tunnelStatus, h0, hany]
    decide
  · intro tid remote procScan
    cases remote with
    | none => exact Or.inr (Or.inr rfl)
    | some ts =>
      by_cases h : 1 ≤ connectionsFor tid ts
      · exact Or.inl (by simp only [tunnelStatus, if_pos h])
      · cases procScan with
        | none => exact Or.inr (Or.inr (by simp only [tunnelStatus, if_neg h]))
        | some procs =>
          cases h2 : procs.any
              (fun cmd => containsChars cmd.toList tid.toList) with
          | true =>
            refine Or.inl ?_
            simp only [tunnelStatus, if_neg h, h2]
            decide
          | false =>
            refine Or.inr (Or.inl ?_)
            simp only [tunnelStatus, if_neg h, h2]
            decide

/-- A remote listing reporting two connections for tunnel `abc`. -/
def remoteListingEx : List RemoteTunnel :=
  [{ id := "abc", name := "t1", connectionCount := 2 }]

/-- Witness for C8 at concrete probe outcomes. -/
theorem tunnelStatus_witness :
    tunnelStatus "abc" none (some []) = .unknown ∧
    tunnelStatus "abc" (some remoteListingEx) none = .running ∧
    tunnelStatus "abc" (some []) (some ["node /usr/bin/something"]) = .stopped :=
  ⟨tunnelStatus_three_states.1 "abc" (some []),
   tunnelStatus_three_states.2.1 "abc" remoteListingEx none (by decide),
   tunnelStatus_three_states.2.2.1 "abc" [] ["node /usr/bin/something"]
     (by decide) (by decide)⟩

/-! ## Tunnel-id extraction in `init` (`src/cli.ts:332-363`)

`output.match(/Created tunnel .* with id ([a-f0-9-]+)/i)`: leftmost
match, case-insensitive literals, greedy `.*` over non-line-terminator
characters, capture group `[a-f0-9-]+`. -/

/-- Lower-case an ASCII letter (effect of the regex `i` flag). -/
def charLower (c : Char) : Char :=
  if 'A' ≤ c && c ≤ 'Z' then Char.ofNat (c.toNat + 32) else c

/-- Case-insensitively consume the literal `pat` from the head of the
input, returning the remainder. -/
def ciConsume : List Char → List Char → Option (List Char)
  | [], cs => some cs
  | _ :: _, [] => none
  | p :: ps, c :: cs =>
      if charLower c == charLower p then ciConsume ps cs else none

/-- `[a-f0-9-]` under the `i` flag. -/
def isIdChar (c : Char) : Bool :=
  ('a' ≤ c && c ≤ 'f') || ('A' ≤ c && c ≤ 'F') || c.isDigit || c == '-'

/-- `.` in a JavaScript regex: any character except a line terminator. -/
def isDotChar (c : Char) : Bool :=
  !(c == '\n' || c == '\r' || c.toNat == 0x2028 || c.toNat == 0x2029)

/-- After the `.*` gap: match `" with id "` then capture the maximal
nonempty `[a-f0-9-]+` run. -/
def tailCapture (cs : List Char) : Option (List Char) :=
  match ciConsume " with id ".toList cs with
  | none => none
  | some rest =>
      let run := rest.takeWhile isIdChar
      if run.isEmpty then none else some run

/-- Greedy `.*`: try the longest admissible gap first, backtracking one
character at a time, as the JavaScript engine does. -/
def tryGap : Nat → List Char → Option (List Char)
  | 0, cs => tailCapture cs
  | k + 1, cs =>
      match tailCapture (cs.drop (k + 1)) with
      | some run => some run
      | none => tryGap k cs

/-- Match the whole pattern at this position: the literal
`Created tunnel `, the greedy gap of non-terminator characters, then
`" with id "` and the captured run. -/
def matchAt (cs : List Char) : Option (List Char) :=
  match ciConsume "Created tunnel ".toList cs with
  | none => none
  | some rest => tryGap (rest.takeWhile isDotChar).length rest

/-- Leftmost match: the engine retries the pattern at each later start
position until one matches. -/
def scanMatch : List Char → Option (List Char)
  | [] => matchAt []
  | c :: cs =>
      match matchAt (c :: cs) with
      | some run => some run
      | none => scanMatch cs

/-- The extracted tunnel id (capture group 1), when the success-message
pattern matches the creation subcommand's output. -/
def parseTunnelId (output : String) : Option String :=
  match scanMatch output.toList with
  | some run => some (String.mk run)
  | none => none

inductive InitOutcome where
  | created (id : String)
  | parseFailed
deriving Repr, DecidableEq

/-- The tunnel-creation tail of `init` (`src/cli.ts:332-363`): after
`cloudflared tunnel create` reports success, the id is extracted from its
output; on a match the config records the new tunnel's name and id and is
saved, otherwise the `Unable to parse tunnel ID` error is reported and
nothing is saved. -/
def initCreate (cfg : Config) (tunnelName : String) (output : String) :
    Config × InitOutcome :=
  match parseTunnelId output with
  | some id =>
      ({ cfg with tunnelName := tunnelName, tunnelId := id }, .created id)
  | none => (cfg, .parseFailed)

/-- C9: `init` extracts the newly assigned tunnel id by pattern-matching
the creation success message; when the subcommand reported success but no
id can be extracted from its output, the operation ends in the parse
failure outcome and no tunnel is recorded in the local config. -/
theorem initCreate_parse_contract :
    (∀ (cfg : Config) (name output : String),
      parseTunnelId output = none →
      initCreate cfg name output = (cfg, .parseFailed)) ∧
    (∀ (cfg : Config) (name output id : String),
      parseTunnelId output = some id →
      (initCreate cfg name output).1.tunnelId = id ∧
      (initCreate cfg name output).1.tunnelName = name ∧
      (initCreate cfg name output).2 = .created id) := by
  constructor
  · intro cfg name output h
    simp [initCreate, h]
  · intro cfg name output id h
    simp [initCreate, h]

/-- A creation output the id pattern does not match. -/
def badCreateOutput : String := "A tunnel with this name already exists"

/-- The documented success-message shape (`src/cli.ts:338-343`), with a
hex id. -/
def goodCreateOutput : String :=
  "Created tunnel t2 with id 9f2b8a-33\nCredentials file /home/u/.cloudflared/9f2b8a-33.json"

/-- Witness for C9: the bad output records nothing; the documented
success message yields the id. -/
theorem initCreate_parse_contract_witness :
    initCreate exampleConfig "t2" badCreateOutput =
      (exampleConfig, .parseFailed) ∧
    (initCreate emptyConfig "t2" goodCreateOutput).1.tunnelId = "9f2b8a-33" ∧
    (initCreate emptyConfig "t2" goodCreateOutput).1.tunnelName = "t2" ∧
    (initCreate emptyConfig "t2" goodCreateOutput).2 = .created "9f2b8a-33" :=
  ⟨initCreate_parse_contract.1 exampleConfig "t2" badCreateOutput (by decide),
   (initCreate_parse_contract.2 emptyConfig "t2" goodCreateOutput "9f2b8a-33"
     (by decide)).1,
   (initCreate_parse_contract.2 emptyConfig "t2" goodCreateOutput "9f2b8a-33"
     (by decide)).2.1,
   (initCreate_parse_contract.2 emptyConfig "t2" goodCreateOutput "9f2b8a-33"
     (by decide)).2.2⟩

end CloudTunnel
